import Mathlib

/-
Verification of the battle rules engine of the PokeGame repository
(src/test.py).  The engine is embedded shallowly:

* machine floats are idealised as exact rationals;
* the Python int() conversion is modelled by pyInt, truncation toward zero;
* the two random draws consumed by a damage resolution (the accuracy roll
  from random.random() and the variance factor from random.uniform(0.85, 1.0))
  are explicit parameters, so every function is pure;
* a value of none models an uncaught Python exception (the ZeroDivisionError
  that calculate_damage raises when the defender has defense 0, or the
  IndexError that random.choice raises on an empty list).
-/

namespace PokeGame

/-- Elemental types, from the PokemonType enum of src/test.py. -/
inductive PokemonType
  | FIRE
  | WATER
  | GRASS
  | ELECTRIC
  | NORMAL
  deriving DecidableEq

/-- A move descriptor, from class Move of src/test.py.  The Python
constructor defaults accuracy to 1.0. -/
structure Move where
  name : String
  power : ℤ
  type : PokemonType
  accuracy : ℚ
  deriving DecidableEq

/-- A combatant, from class Pokemon of src/test.py. -/
structure Pokemon where
  name : String
  type : PokemonType
  max_hp : ℤ
  current_hp : ℤ
  attack : ℤ
  defense : ℤ
  speed : ℤ
  moves : List Move
  deriving DecidableEq

/-- Pokemon.__init__ of src/test.py: a freshly constructed combatant has
current_hp equal to max_hp and no field is validated (in particular a
defense of 0 is accepted as is). -/
def Pokemon.create (nm : String) (t : PokemonType) (hp atk dfn spd : ℤ)
    (mvs : List Move) : Pokemon :=
  { name := nm, type := t, max_hp := hp, current_hp := hp,
    attack := atk, defense := dfn, speed := spd, moves := mvs }

/-- Pokemon.is_alive of src/test.py. -/
def Pokemon.is_alive (p : Pokemon) : Bool :=
  decide (0 < p.current_hp)

/-- Pokemon.take_damage of src/test.py: health is floored at 0. -/
def Pokemon.take_damage (p : Pokemon) (damage : ℤ) : Pokemon :=
  { p with current_hp := max 0 (p.current_hp - damage) }

/-- Pokemon.heal of src/test.py: health is capped at max_hp. -/
def Pokemon.heal (p : Pokemon) (amount : ℤ) : Pokemon :=
  { p with current_hp := min p.max_hp (p.current_hp + amount) }

namespace TypeEffectiveness

/-- TypeEffectiveness.get_multiplier of src/test.py, the CHART dictionary
flattened into a total function on type pairs. -/
def get_multiplier : PokemonType → PokemonType → ℚ
  | .FIRE, .GRASS => 2
  | .FIRE, .WATER => 1/2
  | .FIRE, .FIRE => 1/2
  | .FIRE, .ELECTRIC => 1
  | .FIRE, .NORMAL => 1
  | .WATER, .FIRE => 2
  | .WATER, .GRASS => 1/2
  | .WATER, .WATER => 1/2
  | .WATER, .ELECTRIC => 1
  | .WATER, .NORMAL => 1
  | .GRASS, .WATER => 2
  | .GRASS, .FIRE => 1/2
  | .GRASS, .GRASS => 1/2
  | .GRASS, .ELECTRIC => 1
  | .GRASS, .NORMAL => 1
  | .ELECTRIC, .WATER => 2
  | .ELECTRIC, .GRASS => 1/2
  | .ELECTRIC, .FIRE => 1
  | .ELECTRIC, .ELECTRIC => 1/2
  | .ELECTRIC, .NORMAL => 1
  | .NORMAL, .FIRE => 1
  | .NORMAL, .WATER => 1
  | .NORMAL, .GRASS => 1
  | .NORMAL, .ELECTRIC => 1
  | .NORMAL, .NORMAL => 1

end TypeEffectiveness

/-- Python int() applied to an exact rational value: truncation toward
zero. -/
def pyInt (x : ℚ) : ℤ :=
  if 0 ≤ x then ⌊x⌋ else -⌊-x⌋

/-- PokemonGUI.calculate_damage of src/test.py.  accRoll is the
random.random() draw used for the accuracy check, variance the
random.uniform(0.85, 1.0) draw.  The result none models the uncaught
ZeroDivisionError raised while computing base_damage when the move has
nonzero power, the accuracy roll succeeds and the defender has defense 0;
note that neither the zero-power early return nor a miss reaches the
division. -/
def calculate_damage (attacker defender : Pokemon) (move : Move)
    (accRoll variance : ℚ) : Option ℤ :=
  if move.power = 0 then some 0
  else if move.accuracy < accRoll then some 0
  else if defender.defense = 0 then none
  else
    let base_damage : ℚ :=
      ((2 * 50 + 10) / 250) * ((attacker.attack : ℚ) / (defender.defense : ℚ))
        * (move.power : ℚ) + 2
    let type_multiplier := TypeEffectiveness.get_multiplier move.type defender.type
    let stab : ℚ := if move.type = attacker.type then 3/2 else 1
    some (max 1 (pyInt (base_damage * type_multiplier * variance * stab)))

/-- PokemonGUI.execute_move of src/test.py, restricted to its battle
effects (log messages and display refreshes dropped).  When the computed
damage is 0 (zero-power move or miss) the method returns before touching
the defender; otherwise the defender takes the damage.  The result is the
post-call attacker, the post-call defender and the damage value; none
models an exception propagated from calculate_damage. -/
def execute_move (attacker defender : Pokemon) (move : Move)
    (accRoll variance : ℚ) : Option (Pokemon × Pokemon × ℤ) :=
  match calculate_damage attacker defender move accRoll variance with
  | none => none
  | some damage =>
    if damage = 0 then some (attacker, defender, 0)
    else some (attacker, defender.take_damage damage, damage)

/-- The battle-relevant mutable fields of PokemonGUI. -/
structure GUIState where
  player_pokemon : Pokemon
  enemy_pokemon : Pokemon
  battle_active : Bool
  player_turn : Bool
  deriving DecidableEq

/-- PokemonGUI.start_battle of src/test.py, restricted to its battle
effects.  The enemy combatant (chosen by random.choice from the roster in
the source) is a parameter; given both combatants the method sets
battle_active and decides the first mover by the comparison
player.speed >= enemy.speed, consulting no random draw. -/
def start_battle (player enemy : Pokemon) : GUIState :=
  { player_pokemon := player, enemy_pokemon := enemy,
    battle_active := true,
    player_turn := decide (enemy.speed ≤ player.speed) }

/-- PokemonGUI.use_move of src/test.py, restricted to its battle effects.
When the battle is not active or it is not the player's turn the method
returns immediately: no exception is raised, no message is logged and no
field changes.  Otherwise the move is executed against the enemy; if the
enemy faints, end_battle clears battle_active, else the turn passes to the
enemy. -/
def use_move (s : GUIState) (move : Move) (accRoll variance : ℚ) :
    Option GUIState :=
  if !s.battle_active || !s.player_turn then some s
  else
    match execute_move s.player_pokemon s.enemy_pokemon move accRoll variance with
    | none => none
    | some (a, d, _) =>
      if d.is_alive then
        some { s with player_pokemon := a, enemy_pokemon := d, player_turn := false }
      else
        some { s with player_pokemon := a, enemy_pokemon := d, battle_active := false }

/-- Effectiveness a move would have against a defender of the given
type. -/
def effAgainst (t : PokemonType) (m : Move) : ℚ :=
  TypeEffectiveness.get_multiplier m.type t

/-- One iteration of the best-move scan in PokemonGUI.ai_turn of
src/test.py: a damaging move strictly better than the current best
restarts the tied list, an equally good one is appended, anything else is
skipped. -/
def aiScanStep (ptype : PokemonType) (st : ℚ × List Move) (m : Move) :
    ℚ × List Move :=
  if 0 < m.power then
    let e := effAgainst ptype m
    if st.1 < e then (e, [m])
    else if e = st.1 then (st.1, st.2 ++ [m])
    else st
  else st

/-- The full scan of PokemonGUI.ai_turn over the move list, with
best_effectiveness initialised to 0 and best_moves to the empty list. -/
def aiScan (moves : List Move) (ptype : PokemonType) : ℚ × List Move :=
  moves.foldl (aiScanStep ptype) (0, [])

/-- The list comprehension of PokemonGUI.ai_turn line 454: the moves with
power strictly greater than 0. -/
def damagingMoves (moves : List Move) : List Move :=
  moves.filter (fun m => 0 < m.power)

/-- The list random.choice draws from in PokemonGUI.ai_turn: the scan
result, re-widened to all damaging moves when empty, then to the whole
move list when still empty. -/
def ai_candidates (moves : List Move) (ptype : PokemonType) : List Move :=
  let best_moves := (aiScan moves ptype).2
  let best_moves2 := if best_moves.isEmpty then damagingMoves moves else best_moves
  if best_moves2.isEmpty then moves else best_moves2

/-- The uniform random.choice modelled as selection at a uniformly drawn
index; none models the IndexError raised on an empty list. -/
def pyChoice (l : List Move) (r : ℕ) : Option Move :=
  l.get? (r % l.length)

/-- PokemonGUI.ai_turn of src/test.py, restricted to its battle effects.
When the battle is not active or it is the player's turn the method
returns immediately with no change and no error.  Otherwise the enemy
selects a move through the candidate scan and executes it against the
player. -/
def ai_turn (s : GUIState) (r : ℕ) (accRoll variance : ℚ) : Option GUIState :=
  if !s.battle_active || s.player_turn then some s
  else
    match pyChoice (ai_candidates s.enemy_pokemon.moves s.player_pokemon.type) r with
    | none => none
    | some mv =>
      match execute_move s.enemy_pokemon s.player_pokemon mv accRoll variance with
      | none => none
      | some (a, d, _) =>
        if d.is_alive then
          some { s with enemy_pokemon := a, player_pokemon := d, player_turn := true }
        else
          some { s with enemy_pokemon := a, player_pokemon := d, battle_active := false }

/-- The move-selection policy as worded in spec section 4.4, written
independently of the source scan for the refinement claim C7: among the
damaging moves, those tied for the maximum effectiveness multiplier
against the opponent; all known moves when no damaging move exists. -/
def specMoveSelectionCandidates (moves : List Move) (ptype : PokemonType) :
    List Move :=
  match damagingMoves moves with
  | [] => moves
  | d :: ds =>
    let maxEff := (d :: ds).foldl (fun a m => max a (effAgainst ptype m)) (effAgainst ptype d)
    (d :: ds).filter (fun m => effAgainst ptype m = maxEff)

/-- The running best_effectiveness value of the ai_turn scan, starting
from an arbitrary initial value b: the fold of max over the effectiveness
of the damaging moves.  Used to characterise the scan. -/
def bestEffFrom (ptype : PokemonType) (b : ℚ) (moves : List Move) : ℚ :=
  moves.foldl (fun a m => if 0 < m.power then max a (effAgainst ptype m) else a) b

/-- The health invariant of spec section 3. -/
def hpInvariant (p : Pokemon) : Prop :=
  0 ≤ p.current_hp ∧ p.current_hp ≤ p.max_hp

/-
Concrete data: the move sets and roster of PokemonGUI._create_pokemon_roster
in src/test.py, used below as evaluation points.
-/

/-- Roster move Ember. -/
def Ember : Move := { name := "Ember", power := 40, type := .FIRE, accuracy := 1 }

/-- Roster move Flamethrower. -/
def Flamethrower : Move := { name := "Flamethrower", power := 90, type := .FIRE, accuracy := 9/10 }

/-- Roster move Tackle. -/
def Tackle : Move := { name := "Tackle", power := 40, type := .NORMAL, accuracy := 1 }

/-- Roster move Quick Attack. -/
def QuickAttack : Move := { name := "Quick Attack", power := 30, type := .NORMAL, accuracy := 1 }

/-- Roster move Water Gun. -/
def WaterGun : Move := { name := "Water Gun", power := 40, type := .WATER, accuracy := 1 }

/-- Roster move Hydro Pump. -/
def HydroPump : Move := { name := "Hydro Pump", power := 110, type := .WATER, accuracy := 4/5 }

/-- Roster move Bite. -/
def Bite : Move := { name := "Bite", power := 60, type := .NORMAL, accuracy := 1 }

/-- Roster move Vine Whip. -/
def VineWhip : Move := { name := "Vine Whip", power := 45, type := .GRASS, accuracy := 1 }

/-- Roster move Solar Beam. -/
def SolarBeam : Move := { name := "Solar Beam", power := 120, type := .GRASS, accuracy := 17/20 }

/-- Roster move Sleep Powder, zero power. -/
def SleepPowder : Move := { name := "Sleep Powder", power := 0, type := .GRASS, accuracy := 3/4 }

/-- Roster move Thunder Shock. -/
def ThunderShock : Move := { name := "Thunder Shock", power := 40, type := .ELECTRIC, accuracy := 1 }

/-- Roster move Thunderbolt. -/
def Thunderbolt : Move := { name := "Thunderbolt", power := 90, type := .ELECTRIC, accuracy := 9/10 }

/-- Roster move Thunder Wave, zero power. -/
def ThunderWave : Move := { name := "Thunder Wave", power := 0, type := .ELECTRIC, accuracy := 9/10 }

/-- Roster move Hyper Beam. -/
def HyperBeam : Move := { name := "Hyper Beam", power := 150, type := .NORMAL, accuracy := 9/10 }

/-- Roster move Body Slam. -/
def BodySlam : Move := { name := "Body Slam", power := 85, type := .NORMAL, accuracy := 17/20 }

/-- The fire move set of the roster. -/
def moves_fire : List Move := [Ember, Flamethrower, Tackle, QuickAttack]

/-- The water move set of the roster. -/
def moves_water : List Move := [WaterGun, HydroPump, Tackle, Bite]

/-- The grass move set of the roster. -/
def moves_grass : List Move := [VineWhip, SolarBeam, Tackle, SleepPowder]

/-- The electric move set of the roster. -/
def moves_electric : List Move := [ThunderShock, Thunderbolt, QuickAttack, ThunderWave]

/-- The normal move set of the roster. -/
def moves_normal : List Move := [Tackle, HyperBeam, QuickAttack, BodySlam]

/-- Roster combatant Charmander. -/
def Charmander : Pokemon :=
  { name := "Charmander", type := .FIRE, max_hp := 100, current_hp := 100,
    attack := 85, defense := 70, speed := 90, moves := moves_fire }

/-- Roster combatant Squirtle. -/
def Squirtle : Pokemon :=
  { name := "Squirtle", type := .WATER, max_hp := 110, current_hp := 110,
    attack := 75, defense := 85, speed := 70, moves := moves_water }

/-- Roster combatant Bulbasaur. -/
def Bulbasaur : Pokemon :=
  { name := "Bulbasaur", type := .GRASS, max_hp := 105, current_hp := 105,
    attack := 80, defense := 80, speed := 75, moves := moves_grass }

/-- Roster combatant Pikachu. -/
def Pikachu : Pokemon :=
  { name := "Pikachu", type := .ELECTRIC, max_hp := 90, current_hp := 90,
    attack := 90, defense := 60, speed := 110, moves := moves_electric }

/-- Roster combatant Eevee. -/
def Eevee : Pokemon :=
  { name := "Eevee", type := .NORMAL, max_hp := 95, current_hp := 95,
    attack := 75, defense := 75, speed := 85, moves := moves_normal }

/-- The roster list of PokemonGUI._create_pokemon_roster. -/
def pokemon_roster : List Pokemon := [Charmander, Squirtle, Bulbasaur, Pikachu, Eevee]

/-
Bespoke combatants used as evaluation points for individual claims; the
claims quantify over all combatants, the Python constructor accepts all of
these.
-/

/-- A Grass-type defender with the defense stat 70 named by the spec
example behind C4. -/
def GrassDummy : Pokemon :=
  { name := "GrassDummy", type := .GRASS, max_hp := 100, current_hp := 100,
    attack := 80, defense := 70, speed := 75, moves := [] }

/-- A Water-type defender with the defense stat 70 named by the spec
example behind C4. -/
def WaterDummy : Pokemon :=
  { name := "WaterDummy", type := .WATER, max_hp := 100, current_hp := 100,
    attack := 80, defense := 70, speed := 75, moves := [] }

/-- A Fire-type defender used for the C9 counterexample. -/
def FireDummy : Pokemon :=
  { name := "FireDummy", type := .FIRE, max_hp := 100, current_hp := 100,
    attack := 80, defense := 70, speed := 75, moves := [] }

/-- A combatant with defense 0, accepted unvalidated by the constructor;
used for C5. -/
def ZeroDefense : Pokemon :=
  { name := "ZeroDefense", type := .NORMAL, max_hp := 100, current_hp := 100,
    attack := 80, defense := 0, speed := 75, moves := [] }

/-- Squirtle after taking the 19 damage of a Tackle from Charmander at
variance 1; evaluation point for the execute_move claims. -/
def SquirtleAfterTackle : Pokemon := { Squirtle with current_hp := 91 }

/-- A GUI state in which the battle has ended; evaluation point for C6. -/
def EndedBattleState : GUIState :=
  { player_pokemon := Charmander, enemy_pokemon := Squirtle,
    battle_active := false, player_turn := true }

/-- A GUI state in which it is not the player's turn; evaluation point for
C6. -/
def NotYourTurnState : GUIState :=
  { player_pokemon := Charmander, enemy_pokemon := Squirtle,
    battle_active := true, player_turn := false }

example : calculate_damage Charmander GrassDummy Flamethrower 0 1 = some 150 := by
  norm_num [calculate_damage, Charmander, GrassDummy, Flamethrower,
    TypeEffectiveness.get_multiplier, pyInt]

example : calculate_damage Charmander WaterDummy Flamethrower 0 1 = some 37 := by
  norm_num [calculate_damage, Charmander, WaterDummy, Flamethrower,
    TypeEffectiveness.get_multiplier, pyInt]

example : calculate_damage Charmander ZeroDefense Flamethrower 0 1 = none := by
  norm_num [calculate_damage, Charmander, ZeroDefense, Flamethrower]

/-
Helper lemmas shared by the claim theorems.
-/

/-- After the clamp to a minimum of 1, Python truncation toward zero and
the mathematical floor agree: a product below 1 clamps to 1 either way. -/
lemma max_one_pyInt (x : ℚ) : max 1 (pyInt x) = max 1 ⌊x⌋ := by
  unfold pyInt
  split
  · rfl
  · rename_i h
    push_neg at h
    have h1 : ⌊x⌋ ≤ 0 := by
      have := Int.floor_le_floor h.le
      simpa using this
    have h2 : -⌊-x⌋ ≤ 0 := by
      have : (0 : ℤ) ≤ ⌊-x⌋ := by
        rw [Int.floor_nonneg]
        linarith
      omega
    omega

/-- Truncation of a negative rational is nonpositive. -/
lemma pyInt_nonpos {x : ℚ} (h : x < 0) : pyInt x ≤ 0 := by
  rw [pyInt, if_neg (not_le.mpr h)]
  have : (0 : ℤ) ≤ ⌊-x⌋ := Int.floor_nonneg.mpr (by linarith)
  omega

/-- On the hit path (nonzero power, successful roll, nonzero defense),
calculate_damage returns exactly the clamped truncation of the product in
the order the source computes it. -/
lemma calculate_damage_hit (attacker defender : Pokemon) (move : Move)
    (accRoll variance : ℚ) (hp : move.power ≠ 0) (hacc : accRoll ≤ move.accuracy)
    (hdef : defender.defense ≠ 0) :
    calculate_damage attacker defender move accRoll variance =
      some (max 1 (pyInt
        ((((2 * 50 + 10 : ℚ) / 250) * ((attacker.attack : ℚ) / (defender.defense : ℚ))
            * (move.power : ℚ) + 2)
          * TypeEffectiveness.get_multiplier move.type defender.type
          * variance
          * (if move.type = attacker.type then (3/2 : ℚ) else 1)))) := by
  unfold calculate_damage
  rw [if_neg hp, if_neg (not_lt.mpr hacc), if_neg hdef]

/-- Every value calculate_damage actually returns is nonnegative: a miss
or zero-power move yields 0 and a hit is clamped to at least 1. -/
lemma calculate_damage_nonneg {a d : Pokemon} {m : Move} {r v : ℚ} {x : ℤ}
    (h : calculate_damage a d m r v = some x) : 0 ≤ x := by
  unfold calculate_damage at h
  split at h
  · simp only [Option.some.injEq] at h
    omega
  · split at h
    · simp only [Option.some.injEq] at h
      omega
    · split at h
      · exact absurd h (by simp)
      · simp only [Option.some.injEq] at h
        have h1 : (1 : ℤ) ≤ x := by
          rw [← h]
          exact le_max_left _ _
        omega

/-- Pokemon.take_damage preserves the health invariant for nonnegative
damage. -/
lemma take_damage_invariant (p : Pokemon) (d : ℤ) (hd : 0 ≤ d)
    (h : hpInvariant p) : hpInvariant (p.take_damage d) := by
  obtain ⟨h1, h2⟩ := h
  unfold hpInvariant Pokemon.take_damage at *
  constructor
  · exact le_max_left _ _
  · simp only
    omega

/-- Pokemon.heal preserves the health invariant for nonnegative amounts. -/
lemma heal_invariant (p : Pokemon) (a : ℤ) (ha : 0 ≤ a)
    (h : hpInvariant p) : hpInvariant (p.heal a) := by
  obtain ⟨h1, h2⟩ := h
  unfold hpInvariant Pokemon.heal at *
  constructor <;> simp only <;> omega

/-- Unfolding bestEffFrom over a cons. -/
lemma bestEffFrom_cons (ptype : PokemonType) (b : ℚ) (m : Move) (ms : List Move) :
    bestEffFrom ptype b (m :: ms) =
      bestEffFrom ptype (if 0 < m.power then max b (effAgainst ptype m) else b) ms := rfl

/-- The initial value never exceeds the scanned best effectiveness. -/
lemma le_bestEffFrom (ptype : PokemonType) :
    ∀ (moves : List Move) (b : ℚ), b ≤ bestEffFrom ptype b moves := by
  intro moves
  induction moves with
  | nil => intro b; exact le_refl b
  | cons m ms ih =>
    intro b
    rw [bestEffFrom_cons]
    refine le_trans ?_ (ih _)
    split
    · exact le_max_left _ _
    · exact le_rfl

/-- Every damaging move of the list has effectiveness at most the scanned
best. -/
lemma mem_le_bestEffFrom (ptype : PokemonType) :
    ∀ (moves : List Move) (b : ℚ) (m : Move), m ∈ moves → 0 < m.power →
      effAgainst ptype m ≤ bestEffFrom ptype b moves := by
  intro moves
  induction moves with
  | nil => intro b m hm _; exact absurd hm (List.not_mem_nil m)
  | cons m0 ms ih =>
    intro b m hm hp
    rw [bestEffFrom_cons]
    rcases List.mem_cons.mp hm with h | h
    · subst h
      refine le_trans ?_ (le_bestEffFrom ptype ms _)
      rw [if_pos hp]
      exact le_max_right _ _
    · exact ih _ m h hp

/-- The scanned best effectiveness is either the initial value or attained
by some damaging move of the list. -/
lemma bestEffFrom_attained (ptype : PokemonType) :
    ∀ (moves : List Move) (b : ℚ),
      bestEffFrom ptype b moves = b ∨
        ∃ m, m ∈ moves ∧ 0 < m.power ∧
          effAgainst ptype m = bestEffFrom ptype b moves := by
  intro moves
  induction moves with
  | nil => intro b; exact Or.inl rfl
  | cons m0 ms ih =>
    intro b
    rw [bestEffFrom_cons]
    by_cases hp : 0 < m0.power
    · rw [if_pos hp]
      rcases ih (max b (effAgainst ptype m0)) with h | ⟨m, hm, hp2, he⟩
      · rcases max_cases b (effAgainst ptype m0) with ⟨hmax, _⟩ | ⟨hmax, _⟩
        · exact Or.inl (by rw [h, hmax])
        · exact Or.inr ⟨m0, List.mem_cons_self m0 ms, hp, by rw [h, hmax]⟩
      · exact Or.inr ⟨m, List.mem_cons_of_mem m0 hm, hp2, he⟩
    · rw [if_neg hp]
      rcases ih b with h | ⟨m, hm, hp2, he⟩
      · exact Or.inl h
      · exact Or.inr ⟨m, List.mem_cons_of_mem m0 hm, hp2, he⟩

/-- Unfolding damagingMoves over a cons. -/
lemma damagingMoves_cons (m : Move) (ms : List Move) :
    damagingMoves (m :: ms) =
      if 0 < m.power then m :: damagingMoves ms else damagingMoves ms := by
  simp [damagingMoves, List.filter_cons]

/-- The scanned best effectiveness equals the plain fold of max over the
damaging moves only. -/
lemma bestEffFrom_eq_damaging (ptype : PokemonType) :
    ∀ (moves : List Move) (b : ℚ),
      bestEffFrom ptype b moves =
        (damagingMoves moves).foldl (fun a m => max a (effAgainst ptype m)) b := by
  intro moves
  induction moves with
  | nil => intro b; rfl
  | cons m0 ms ih =>
    intro b
    rw [bestEffFrom_cons, damagingMoves_cons]
    by_cases hp : 0 < m0.power
    · rw [if_pos hp, if_pos hp, List.foldl_cons]
      exact ih _
    · rw [if_neg hp, if_neg hp]
      exact ih b

/-- Characterisation of the tied-best list the ai_turn scan builds: from
the state (b, L) it ends with all damaging moves whose effectiveness
equals the final best value, appended to L exactly when no damaging move
beat b. -/
lemma aiScan_snd (ptype : PokemonType) :
    ∀ (moves : List Move) (b : ℚ) (L : List Move),
      (moves.foldl (aiScanStep ptype) (b, L)).2 =
        (if b < bestEffFrom ptype b moves then [] else L) ++
          (damagingMoves moves).filter
            (fun m => effAgainst ptype m = bestEffFrom ptype b moves) := by
  intro moves
  induction moves with
  | nil =>
    intro b L
    simp [bestEffFrom, damagingMoves]
  | cons m0 ms ih =>
    intro b L
    rw [List.foldl_cons, bestEffFrom_cons, damagingMoves_cons]
    by_cases hp : 0 < m0.power
    · rw [if_pos hp, if_pos hp]
      by_cases h1 : b < effAgainst ptype m0
      · have hstep : aiScanStep ptype (b, L) m0 = (effAgainst ptype m0, [m0]) := by
          simp only [aiScanStep]
          rw [if_pos hp, if_pos h1]
        rw [hstep, ih (effAgainst ptype m0) [m0], max_eq_right h1.le]
        have hbB : b < bestEffFrom ptype (effAgainst ptype m0) ms :=
          lt_of_lt_of_le h1 (le_bestEffFrom ptype ms _)
        rw [if_pos hbB, List.filter_cons]
        by_cases h2 : effAgainst ptype m0 < bestEffFrom ptype (effAgainst ptype m0) ms
        · rw [if_pos h2]
          simp [h2.ne]
        · have h2e : effAgainst ptype m0 = bestEffFrom ptype (effAgainst ptype m0) ms :=
            le_antisymm (le_bestEffFrom ptype ms _) (not_lt.mp h2)
          rw [if_neg h2]
          simp [← h2e]
      · by_cases h2 : effAgainst ptype m0 = b
        · have hstep : aiScanStep ptype (b, L) m0 = (b, L ++ [m0]) := by
            simp only [aiScanStep]
            rw [if_pos hp, if_neg h1, if_pos h2]
          rw [hstep, ih b (L ++ [m0])]
          have hmax : max b (effAgainst ptype m0) = b := by rw [h2]; exact max_self b
          rw [hmax, List.filter_cons]
          by_cases h3 : b < bestEffFrom ptype b ms
          · rw [if_pos h3, if_pos h3]
            have hne : effAgainst ptype m0 ≠ bestEffFrom ptype b ms := by
              rw [h2]; exact h3.ne
            simp [hne]
          · rw [if_neg h3, if_neg h3]
            have hBb : bestEffFrom ptype b ms = b :=
              le_antisymm (not_lt.mp h3) (le_bestEffFrom ptype ms b)
            have heq : effAgainst ptype m0 = bestEffFrom ptype b ms := by
              rw [h2, hBb]
            simp [heq]
        · have h3 : effAgainst ptype m0 < b := lt_of_le_of_ne (not_lt.mp h1) h2
          have hstep : aiScanStep ptype (b, L) m0 = (b, L) := by
            simp only [aiScanStep]
            rw [if_pos hp, if_neg h1, if_neg h2]
          rw [hstep, ih b L]
          have hmax : max b (effAgainst ptype m0) = b := max_eq_left h3.le
          rw [hmax, List.filter_cons]
          have hne : effAgainst ptype m0 ≠ bestEffFrom ptype b ms :=
            ne_of_lt (lt_of_lt_of_le h3 (le_bestEffFrom ptype ms b))
          simp [hne]
    · have hstep : aiScanStep ptype (b, L) m0 = (b, L) := by
        simp only [aiScanStep]
        rw [if_neg hp]
      rw [if_neg hp, if_neg hp, hstep, ih b L]

/-- Every entry of the effectiveness chart is strictly positive. -/
lemma get_multiplier_pos (t u : PokemonType) :
    0 < TypeEffectiveness.get_multiplier t u := by
  cases t <;> cases u <;> norm_num [TypeEffectiveness.get_multiplier]

/-- Effectiveness against any defender type is strictly positive. -/
lemma effAgainst_pos (t : PokemonType) (m : Move) : 0 < effAgainst t m :=
  get_multiplier_pos m.type t

/-
Claim theorems.
-/

/-- C1: on every resolution of a move with positive power whose accuracy
roll succeeds (against a defender with nonzero defense, without which no
resolution completes at all, see C5), the damage dealt equals the floor of
base times stab times effectiveness times variance, clamped to a minimum
of 1, with base, stab and effectiveness exactly as the spec states them. -/
theorem C1_damage_formula (attacker defender : Pokemon) (move : Move)
    (accRoll variance : ℚ) (hp : 0 < move.power) (hacc : accRoll ≤ move.accuracy)
    (hdef : defender.defense ≠ 0) :
    calculate_damage attacker defender move accRoll variance =
      some (max 1 ⌊(((2 * 50 + 10 : ℚ) / 250) * ((attacker.attack : ℚ) / (defender.defense : ℚ))
            * (move.power : ℚ) + 2)
          * (if move.type = attacker.type then (3/2 : ℚ) else 1)
          * TypeEffectiveness.get_multiplier move.type defender.type
          * variance⌋) := by
  rw [calculate_damage_hit attacker defender move accRoll variance (by omega) hacc hdef]
  rw [max_one_pyInt]
  congr 3
  ring

/-- Witness for C1: Charmander hitting Squirtle with Flamethrower at
variance 1 satisfies every hypothesis and the formula. -/
theorem C1_damage_formula_witness :
    (0 : ℤ) < Flamethrower.power ∧ (0 : ℚ) ≤ Flamethrower.accuracy ∧
    Squirtle.defense ≠ 0 ∧
    calculate_damage Charmander Squirtle Flamethrower 0 1 =
      some (max 1 ⌊(((2 * 50 + 10 : ℚ) / 250) * ((Charmander.attack : ℚ) / (Squirtle.defense : ℚ))
            * (Flamethrower.power : ℚ) + 2)
          * (if Flamethrower.type = Charmander.type then (3/2 : ℚ) else 1)
          * TypeEffectiveness.get_multiplier Flamethrower.type Squirtle.type
          * 1⌋) :=
  ⟨by decide, by norm_num [Flamethrower], by decide,
    C1_damage_formula Charmander Squirtle Flamethrower 0 1 (by decide)
      (by norm_num [Flamethrower]) (by decide)⟩

/-- C2: the health invariant 0 ≤ current_hp ≤ max_hp is preserved by
take_damage (which floors at 0) for nonnegative damage, by heal (which
caps at max_hp) for nonnegative amounts, and by execute_move for both
combatants whenever it held before the call. -/
theorem C2_health_invariant :
    (∀ (p : Pokemon) (d : ℤ), 0 ≤ d → hpInvariant p → hpInvariant (p.take_damage d)) ∧
    (∀ (p : Pokemon) (a : ℤ), 0 ≤ a → hpInvariant p → hpInvariant (p.heal a)) ∧
    (∀ (atk dfn : Pokemon) (m : Move) (r v : ℚ) (atk2 dfn2 : Pokemon) (dmg : ℤ),
      hpInvariant atk → hpInvariant dfn →
      execute_move atk dfn m r v = some (atk2, dfn2, dmg) →
      hpInvariant atk2 ∧ hpInvariant dfn2) := by
  refine ⟨take_damage_invariant, heal_invariant, ?_⟩
  intro atk dfn m r v atk2 dfn2 dmg hatk hdfn hexec
  cases hcd : calculate_damage atk dfn m r v with
  | none =>
    rw [execute_move, hcd] at hexec
    exact absurd hexec (by simp)
  | some damage =>
    simp only [execute_move, hcd] at hexec
    by_cases hz : damage = 0
    · rw [if_pos hz] at hexec
      simp only [Option.some.injEq, Prod.mk.injEq] at hexec
      obtain ⟨h1, h2, _⟩ := hexec
      exact ⟨h1 ▸ hatk, h2 ▸ hdfn⟩
    · rw [if_neg hz] at hexec
      simp only [Option.some.injEq, Prod.mk.injEq] at hexec
      obtain ⟨h1, h2, _⟩ := hexec
      have hnn : 0 ≤ damage := calculate_damage_nonneg hcd
      exact ⟨h1 ▸ hatk, h2 ▸ take_damage_invariant dfn damage hnn hdfn⟩

/-- Witness for C2: the invariant holds after Charmander takes 30 damage,
after Charmander heals 30, and for both combatants after Charmander hits
Squirtle with Tackle. -/
theorem C2_health_invariant_witness :
    hpInvariant (Pokemon.take_damage Charmander 30) ∧
    hpInvariant (Pokemon.heal Charmander 30) ∧
    (hpInvariant Charmander ∧ hpInvariant SquirtleAfterTackle) :=
  ⟨C2_health_invariant.1 Charmander 30 (by decide) ⟨by decide, by decide⟩,
   C2_health_invariant.2.1 Charmander 30 (by decide) ⟨by decide, by decide⟩,
   C2_health_invariant.2.2 Charmander Squirtle Tackle 0 1 Charmander
     SquirtleAfterTackle 19 ⟨by decide, by decide⟩ ⟨by decide, by decide⟩
     (by norm_num [execute_move, calculate_damage, Pokemon.take_damage, pyInt,
       Charmander, Squirtle, SquirtleAfterTackle, Tackle,
       TypeEffectiveness.get_multiplier, max_def,
       (by decide : PokemonType.NORMAL ≠ PokemonType.FIRE)])⟩

/-- C3: a resolution that deals no damage never mutates state: a move with
power 0 (whatever its accuracy and roll) and a move whose accuracy roll
fails both make execute_move return damage 0 with both combatants exactly
as they were. -/
theorem C3_zero_damage_no_mutation (a d : Pokemon) (m : Move) (r v : ℚ)
    (h : m.power = 0 ∨ m.accuracy < r) :
    execute_move a d m r v = some (a, d, 0) := by
  rcases h with h | h
  · simp [execute_move, calculate_damage, h]
  · by_cases hp : m.power = 0
    · simp [execute_move, calculate_damage, hp]
    · simp [execute_move, calculate_damage, hp, h]

/-- Witness for C3: the zero-power Sleep Powder resolves with no damage
and no change, and a missed Flamethrower (roll 0.95 above accuracy 0.9)
does too. -/
theorem C3_zero_damage_no_mutation_witness :
    execute_move Bulbasaur Charmander SleepPowder 0 1 =
      some (Bulbasaur, Charmander, 0) ∧
    execute_move Charmander Squirtle Flamethrower (95/100) 1 =
      some (Charmander, Squirtle, 0) :=
  ⟨C3_zero_damage_no_mutation Bulbasaur Charmander SleepPowder 0 1 (Or.inl rfl),
   C3_zero_damage_no_mutation Charmander Squirtle Flamethrower (95/100) 1
     (Or.inr (by norm_num [Flamethrower]))⟩

/-- C4 counterexample: at the exact inputs of the spec example (Fire-type
attacker with attack 85, Fire move of power 90, defender of defense 70 and
type Grass, variance fixed at 1), the code deals 150 damage, not the 168
the claim states: the spec example mis-evaluates its own base formula,
whose constant is (2*50+10)/250 = 0.44, giving base 1753/35 and damage
floor(1753/35 * 2 * 1 * 1.5) = floor(150.257) = 150. -/
theorem C4_counterexample :
    calculate_damage Charmander GrassDummy Flamethrower 0 1 = some 150 ∧
    calculate_damage Charmander GrassDummy Flamethrower 0 1 ≠ some 168 := by
  have h : calculate_damage Charmander GrassDummy Flamethrower 0 1 = some 150 := by
    norm_num [calculate_damage, Charmander, GrassDummy, Flamethrower,
      TypeEffectiveness.get_multiplier, pyInt]
  exact ⟨h, by rw [h]; decide⟩

/-- C4 amended: with variance fixed at 1, the Fire move of power 90 from
the attack-85 Fire attacker against the defense-70 defender deals exactly
150 damage to a Grass defender and exactly 37 to a Water defender. -/
theorem C4_amended_damage_values :
    calculate_damage Charmander GrassDummy Flamethrower 0 1 = some 150 ∧
    calculate_damage Charmander WaterDummy Flamethrower 0 1 = some 37 := by
  constructor
  · norm_num [calculate_damage, Charmander, GrassDummy, Flamethrower,
      TypeEffectiveness.get_multiplier, pyInt]
  · norm_num [calculate_damage, Charmander, WaterDummy, Flamethrower,
      TypeEffectiveness.get_multiplier, pyInt]

/-- C5: the code contradicts the spec requirement behind this claim.  The
constructor accepts defense 0 unvalidated, calculate_damage has no special
case for it, and a power-90 move whose roll succeeds against the defense-0
defender reaches the division and fails (none models the uncaught
ZeroDivisionError). -/
theorem C5_division_by_zero_not_prevented :
    ZeroDefense.defense = 0 ∧
    calculate_damage Charmander ZeroDefense Flamethrower 0 1 = none := by
  constructor
  · decide
  · norm_num [calculate_damage, Charmander, ZeroDefense, Flamethrower]

/-- C6 counterexample: with the battle ended, use_move neither raises (the
result is not none, the only error channel the method has) nor reports
anything: it silently returns with the state unchanged, refuting the claim
that the engine signals an error. -/
theorem C6_counterexample :
    use_move EndedBattleState Tackle 0 1 = some EndedBattleState ∧
    use_move EndedBattleState Tackle 0 1 ≠ none := by
  have h : use_move EndedBattleState Tackle 0 1 = some EndedBattleState := by
    simp [use_move, EndedBattleState]
  exact ⟨h, by rw [h]; simp⟩

/-- C6 amended: when the battle is not active or it is not the acting
side's turn, use_move and ai_turn silently ignore the action: no move is
resolved and no state changes, but no error is raised or flagged either. -/
theorem C6_amended_silent_ignore (s : GUIState) (m : Move) (r : ℕ)
    (accRoll variance : ℚ) :
    (s.battle_active = false ∨ s.player_turn = false →
      use_move s m accRoll variance = some s) ∧
    (s.battle_active = false ∨ s.player_turn = true →
      ai_turn s r accRoll variance = some s) := by
  constructor
  · intro h
    rcases h with h | h <;> simp [use_move, h]
  · intro h
    rcases h with h | h <;> simp [ai_turn, h]

/-- Witness for C6 amended: an out-of-turn use_move and a post-battle
ai_turn both return the state unchanged. -/
theorem C6_amended_silent_ignore_witness :
    use_move NotYourTurnState Tackle 0 1 = some NotYourTurnState ∧
    ai_turn EndedBattleState 3 0 1 = some EndedBattleState :=
  ⟨(C6_amended_silent_ignore NotYourTurnState Tackle 3 0 1).1 (Or.inr rfl),
   (C6_amended_silent_ignore EndedBattleState Tackle 3 0 1).2 (Or.inl rfl)⟩

/-- C8: at battle start the strictly faster combatant acts first, the
player acts first on a speed tie, and the decision is a function of the
two speed values alone (start_battle consumes no random draw for it). -/
theorem C8_first_mover (p e : Pokemon) :
    (e.speed < p.speed → (start_battle p e).player_turn = true) ∧
    (p.speed < e.speed → (start_battle p e).player_turn = false) ∧
    (p.speed = e.speed → (start_battle p e).player_turn = true) ∧
    (∀ p2 e2 : Pokemon, p.speed = p2.speed → e.speed = e2.speed →
      (start_battle p e).player_turn = (start_battle p2 e2).player_turn) := by
  refine ⟨fun h => ?_, fun h => ?_, fun h => ?_, fun p2 e2 h1 h2 => ?_⟩
  · simp only [start_battle, decide_eq_true_eq]
    omega
  · simp only [start_battle, decide_eq_false_iff_not]
    omega
  · simp only [start_battle, decide_eq_true_eq]
    omega
  · simp [start_battle, h1, h2]

/-- Witness for C8: Charmander (speed 90) moves before Squirtle (speed
70), and the player side wins the tie of the Eevee mirror match. -/
theorem C8_first_mover_witness :
    (start_battle Charmander Squirtle).player_turn = true ∧
    (start_battle Eevee Eevee).player_turn = true :=
  ⟨(C8_first_mover Charmander Squirtle).1 (by decide),
   (C8_first_mover Eevee Eevee).2.2.1 rfl⟩

/-- C9 counterexample: against a Fire defender, the Fire attacker with the
matching Fire move of power 90 deals 37 (effectiveness 0.5 times stab 1.5)
while the identical non-matching Electric move deals 50 (effectiveness 1,
no stab): changing the move type also changes the effectiveness
multiplier, so matching damage is not always at least non-matching
damage. -/
theorem C9_counterexample :
    calculate_damage Charmander FireDummy Flamethrower 0 1 = some 37 ∧
    calculate_damage Charmander FireDummy Thunderbolt 0 1 = some 50 ∧
    ¬ ((50 : ℤ) ≤ 37) := by
  refine ⟨?_, ?_, by decide⟩
  · norm_num [calculate_damage, Charmander, FireDummy, Flamethrower,
      TypeEffectiveness.get_multiplier, pyInt]
  · norm_num [calculate_damage, Charmander, FireDummy, Thunderbolt,
      TypeEffectiveness.get_multiplier, pyInt,
      (by decide : PokemonType.ELECTRIC ≠ PokemonType.FIRE)]

/-- C9 amended: with the variance held fixed and the two move types having
the same effectiveness multiplier against the defender, a move matching
the attacker's type deals at least the damage of an otherwise identical
non-matching move. -/
theorem C9_amended_stab_monotone (a d : Pokemon) (m m2 : Move) (r v : ℚ)
    (hty : m.type = a.type) (hty2 : m2.type ≠ a.type)
    (hpow : m2.power = m.power) (haccM : m2.accuracy = m.accuracy)
    (heff : TypeEffectiveness.get_multiplier m2.type d.type =
      TypeEffectiveness.get_multiplier m.type d.type)
    (hp : 0 < m.power) (hroll : r ≤ m.accuracy) (hdef : d.defense ≠ 0)
    (x y : ℤ)
    (hx : calculate_damage a d m r v = some x)
    (hy : calculate_damage a d m2 r v = some y) :
    y ≤ x := by
  rw [calculate_damage_hit a d m r v (by omega) hroll hdef, if_pos hty] at hx
  rw [calculate_damage_hit a d m2 r v (by omega) (by rw [haccM]; exact hroll) hdef,
    if_neg hty2, hpow, heff] at hy
  replace hx := Option.some.inj hx
  replace hy := Option.some.inj hy
  subst hx
  subst hy
  set t : ℚ := (((2 * 50 + 10 : ℚ) / 250) * ((a.attack : ℚ) / (d.defense : ℚ))
      * (m.power : ℚ) + 2)
    * TypeEffectiveness.get_multiplier m.type d.type * v with ht
  rw [mul_one]
  by_cases hsgn : 0 ≤ t
  · have h32 : (0 : ℚ) ≤ 3/2 := by norm_num
    rw [pyInt, if_pos hsgn, pyInt, if_pos (mul_nonneg hsgn h32)]
    exact max_le_max le_rfl (Int.floor_le_floor (by nlinarith))
  · push_neg at hsgn
    have h1 : pyInt t ≤ 0 := pyInt_nonpos hsgn
    have h2 : pyInt (t * (3/2)) ≤ 0 := pyInt_nonpos (by nlinarith)
    rw [max_eq_left (by omega), max_eq_left (by omega)]

/-- Witness for C9 amended: against the Normal defender Eevee both Fire
and Electric have multiplier 1; Flamethrower from Charmander deals 70 with
stab, the identical Thunderbolt 46 without. -/
theorem C9_amended_stab_monotone_witness :
    calculate_damage Charmander Eevee Flamethrower 0 1 = some 70 ∧
    calculate_damage Charmander Eevee Thunderbolt 0 1 = some 46 ∧
    (46 : ℤ) ≤ 70 := by
  have h1 : calculate_damage Charmander Eevee Flamethrower 0 1 = some 70 := by
    norm_num [calculate_damage, Charmander, Eevee, Flamethrower,
      TypeEffectiveness.get_multiplier, pyInt]
  have h2 : calculate_damage Charmander Eevee Thunderbolt 0 1 = some 46 := by
    norm_num [calculate_damage, Charmander, Eevee, Thunderbolt,
      TypeEffectiveness.get_multiplier, pyInt,
      (by decide : PokemonType.ELECTRIC ≠ PokemonType.FIRE)]
  exact ⟨h1, h2,
    C9_amended_stab_monotone Charmander Eevee Flamethrower Thunderbolt 0 1
      rfl (by decide) rfl rfl rfl (by decide) (by norm_num [Flamethrower])
      (by decide) 70 46 h1 h2⟩

/-- C10: execute_move changes at most the defender's current health: the
attacker is returned exactly as passed and every other field of the
defender is unchanged. -/
theorem C10_frame_condition (a d : Pokemon) (m : Move) (r v : ℚ)
    (a2 d2 : Pokemon) (dmg : ℤ)
    (h : execute_move a d m r v = some (a2, d2, dmg)) :
    a2 = a ∧ d2.name = d.name ∧ d2.type = d.type ∧ d2.max_hp = d.max_hp ∧
    d2.attack = d.attack ∧ d2.defense = d.defense ∧ d2.speed = d.speed ∧
    d2.moves = d.moves := by
  cases hcd : calculate_damage a d m r v with
  | none =>
    rw [execute_move, hcd] at h
    exact absurd h (by simp)
  | some damage =>
    simp only [execute_move, hcd] at h
    by_cases hz : damage = 0
    · rw [if_pos hz] at h
      simp only [Option.some.injEq, Prod.mk.injEq] at h
      obtain ⟨h1, h2, _⟩ := h
      subst h1
      subst h2
      exact ⟨rfl, rfl, rfl, rfl, rfl, rfl, rfl, rfl⟩
    · rw [if_neg hz] at h
      simp only [Option.some.injEq, Prod.mk.injEq] at h
      obtain ⟨h1, h2, _⟩ := h
      subst h1
      subst h2
      exact ⟨rfl, rfl, rfl, rfl, rfl, rfl, rfl, rfl⟩

/-- Witness for C10: Charmander hitting Squirtle with Tackle for 19 leaves
the attacker and every non-health field of the defender unchanged. -/
theorem C10_frame_condition_witness :
    Charmander = Charmander ∧ SquirtleAfterTackle.name = Squirtle.name ∧
    SquirtleAfterTackle.type = Squirtle.type ∧
    SquirtleAfterTackle.max_hp = Squirtle.max_hp ∧
    SquirtleAfterTackle.attack = Squirtle.attack ∧
    SquirtleAfterTackle.defense = Squirtle.defense ∧
    SquirtleAfterTackle.speed = Squirtle.speed ∧
    SquirtleAfterTackle.moves = Squirtle.moves :=
  C10_frame_condition Charmander Squirtle Tackle 0 1 Charmander
    SquirtleAfterTackle 19
    (by norm_num [execute_move, calculate_damage, Pokemon.take_damage, pyInt,
      Charmander, Squirtle, SquirtleAfterTackle, Tackle,
      TypeEffectiveness.get_multiplier, max_def,
      (by decide : PokemonType.NORMAL ≠ PokemonType.FIRE)])

/-- C7: the opponent move choice is the uniform random.choice over a
candidate list that is a pure function of the opponent move list and the
player type, and that list is exactly what the spec describes: the
damaging moves tied for the maximum effectiveness against the player
type, or all known moves when no damaging move exists. -/
theorem C7_ai_move_selection (moves : List Move) (ptype : PokemonType) :
    ai_candidates moves ptype = specMoveSelectionCandidates moves ptype := by
  cases hds : damagingMoves moves with
  | nil =>
    have hscan : (aiScan moves ptype).2 = [] := by
      rw [aiScan, aiScan_snd ptype moves 0 [], hds]
      simp
    simp [ai_candidates, specMoveSelectionCandidates, hscan, hds]
  | cons d ds =>
    have hdmem : d ∈ damagingMoves moves := by
      rw [hds]
      exact List.mem_cons_self d ds
    have hdmem2 : d ∈ moves.filter (fun m => decide (0 < m.power)) := hdmem
    have hdmoves : d ∈ moves := (List.mem_filter.mp hdmem2).1
    have hdpow : 0 < d.power := of_decide_eq_true (List.mem_filter.mp hdmem2).2
    have hdB : effAgainst ptype d ≤ bestEffFrom ptype 0 moves :=
      mem_le_bestEffFrom ptype moves 0 d hdmoves hdpow
    have hBpos : 0 < bestEffFrom ptype 0 moves :=
      lt_of_lt_of_le (effAgainst_pos ptype d) hdB
    obtain ⟨mm, hmm, hmp, hme⟩ :
        ∃ m, m ∈ moves ∧ 0 < m.power ∧
          effAgainst ptype m = bestEffFrom ptype 0 moves := by
      rcases bestEffFrom_attained ptype moves 0 with h | h
      · rw [h] at hBpos
        exact absurd hBpos (lt_irrefl 0)
      · exact h
    have hmm2 : mm ∈ (damagingMoves moves).filter
        (fun m => effAgainst ptype m = bestEffFrom ptype 0 moves) := by
      rw [List.mem_filter]
      refine ⟨?_, decide_eq_true hme⟩
      show mm ∈ moves.filter (fun m => decide (0 < m.power))
      rw [List.mem_filter]
      exact ⟨hmm, decide_eq_true hmp⟩
    have hscan : (aiScan moves ptype).2 = (damagingMoves moves).filter
        (fun m => effAgainst ptype m = bestEffFrom ptype 0 moves) := by
      rw [aiScan, aiScan_snd ptype moves 0 [], if_pos hBpos, List.nil_append]
    have hisEmpty : ((damagingMoves moves).filter
        (fun m => effAgainst ptype m = bestEffFrom ptype 0 moves)).isEmpty = false := by
      cases hF : (damagingMoves moves).filter
          (fun m => effAgainst ptype m = bestEffFrom ptype 0 moves) with
      | nil => exact absurd hF (List.ne_nil_of_mem hmm2)
      | cons a as => rfl
    have hBmax : bestEffFrom ptype 0 moves =
        (d :: ds).foldl (fun a m => max a (effAgainst ptype m)) (effAgainst ptype d) := by
      rw [bestEffFrom_eq_damaging ptype moves 0, hds, List.foldl_cons, List.foldl_cons]
      congr 1
      rw [max_self, max_eq_right (effAgainst_pos ptype d).le]
    have hspec : specMoveSelectionCandidates moves ptype =
        (d :: ds).filter (fun m => effAgainst ptype m =
          (d :: ds).foldl (fun a m => max a (effAgainst ptype m)) (effAgainst ptype d)) := by
      unfold specMoveSelectionCandidates
      rw [hds]
    have hgoal : ai_candidates moves ptype = (damagingMoves moves).filter
        (fun m => effAgainst ptype m = bestEffFrom ptype 0 moves) := by
      simp [ai_candidates, hscan, hisEmpty]
    rw [hspec, hgoal, hds]
    simp only [hBmax]

end PokeGame
